import Mathlib

/-!
Verification of the Property Portfolio backend (`src/main.py`, `src/schemas.py`)
against its natural-language specification.

Shallow embedding conventions:
* Python truthiness of optional strings (`None` and `""` are falsy) is modelled
  by `pyTruthy`; Python `x or y` on optional strings by `pyOr`.
* Environment variables that influence control flow (`SMTP_HOST`,
  `CONTACT_TO_EMAIL`, `TO_EMAIL`) are fields of `Env`.  `SMTP_PORT`,
  `SMTP_USER` and `SMTP_PASS` are consumed only inside the opaque SMTP client
  call (the `try` block of `send_email_via_smtp`), so they are absorbed into
  the abstract outcome of that call.
* The outcome of the `try` block around the SMTP session (connect, STARTTLS,
  optional login, send) is an input `attempt : Except String Unit`: `.ok ()`
  when `server.send_message` completed, `.error e` when any exception with
  message `e` was raised.
* The outcome of a call to `create_document` from the contact handler is an
  input `persist : Except String String`: `.ok id` when the call returned the
  id `id`, `.error e` when it raised.
* `HTTPException` raised by a handler is an `Except.error` carrying status
  code and detail.
-/

/-- Python truthiness of an optional string: `None` and `""` are falsy. -/
def pyTruthy : Option String → Bool
  | none => false
  | some s => s ≠ ""

/-- Python `x or y` on optional strings: `y` when `x` is falsy, else `x`. -/
def pyOr (x y : Option String) : Option String :=
  if pyTruthy x then x else y

/-- The environment variables read by `send_email_via_smtp` that influence its
control flow (src/main.py lines 114, 118). -/
structure Env where
  smtpHost : Option String
  contactToEmail : Option String
  toEmail : Option String
deriving Repr, DecidableEq

/-- The `if not (host and to_email)` guard of `send_email_via_smtp`
(src/main.py line 119): delivery is attempted exactly when this is `true`. -/
def smtpConfigured (env : Env) : Bool :=
  pyTruthy env.smtpHost && pyTruthy (pyOr env.contactToEmail env.toEmail)

/-- `send_email_via_smtp` (src/main.py lines 113-134).  `subject`, `body` and
`from_email` only populate the outgoing message, never the result; `attempt`
is the outcome of the SMTP `try` block.  Returns the Python pair
`(ok, info)`. -/
def send_email_via_smtp (env : Env) (attempt : Except String Unit)
    (subject body from_email : String) : Bool × String :=
  if smtpConfigured env then
    match attempt with
    | .ok _ => (true, "sent")
    | .error e => (false, e)
  else
    (false, "SMTP not configured")

/-- The `ContactMessage` pydantic model (src/schemas.py lines 28-32), as the
raw field values of a submitted body. -/
structure ContactMessage where
  name : String
  email : String
  phone : Option String
  message : String
deriving Repr, DecidableEq

/-- `ContactMessage` validation (src/schemas.py lines 28-32): name 2-120
chars, email accepted by pydantic's `EmailStr` (abstracted as `emailOK`),
phone absent or at most 50 chars, message 5-5000 chars. -/
def contactMessageValid (emailOK : String → Bool) (m : ContactMessage) : Bool :=
  (2 ≤ m.name.length && m.name.length ≤ 120)
    && emailOK m.email
    && (match m.phone with
        | none => true
        | some p => p.length ≤ 50)
    && (5 ≤ m.message.length && m.message.length ≤ 5000)

/-- The notification body composed by `submit_contact`
(src/main.py lines 145-150). -/
def contactBody (payload : ContactMessage) : String :=
  "Name: " ++ payload.name ++ "\n"
    ++ "Email: " ++ payload.email ++ "\n"
    ++ "Phone: " ++ (if pyTruthy payload.phone then payload.phone.getD "" else "-")
    ++ "\n\n"
    ++ "Message:\n" ++ payload.message ++ "\n"

/-- The JSON object returned by `submit_contact` (src/main.py line 156). -/
structure ContactResponse where
  status : String
  id : Option String
  detail : String
deriving Repr, DecidableEq

/-- `submit_contact` (src/main.py lines 136-156).  `persist` is the outcome of
`create_document("contactmessage", payload)` (value returned, or exception
raised); `attempt` is the outcome of the SMTP `try` block inside
`send_email_via_smtp`. -/
def submit_contact (env : Env) (persist : Except String String)
    (attempt : Except String Unit) (payload : ContactMessage) : ContactResponse :=
  let saved_id : Option String :=
    match persist with
    | .ok i => some i
    | .error _ => none
  let r := send_email_via_smtp env attempt "New portfolio inquiry"
    (contactBody payload) payload.email
  let ok := r.1
  let info := r.2
  { status := if ok then "emailed" else "stored"
  , id := saved_id
  , detail :=
      if ok then "Message emailed successfully"
      else if pyTruthy saved_id then
        "Email not sent: " ++ info ++ ". Saved to database."
      else "Email not sent and could not save." }

/-- The `PortfolioItem` pydantic model (src/schemas.py lines 12-25), as the
raw field values of a submitted body. -/
structure PortfolioItem where
  title : Option String
  category : String
  src : String
  caption : Option String
  width : Option Int
  height : Option Int
deriving Repr, DecidableEq

/-- The six category values of the `Literal` type of `PortfolioItem.category`
(src/schemas.py lines 14-21). -/
def portfolioItemCategoryValues : List String :=
  ["Interiors", "Exteriors", "Drone / Aerial", "Architectural Details",
   "Commercial Spaces", "Short-Let & Airbnb"]

/-- `PortfolioItem` validation (src/schemas.py lines 12-25): category one of
the six literals, src accepted by pydantic's `HttpUrl` (abstracted as
`urlOK`), width/height absent or at least 1. -/
def portfolioItemValid (urlOK : String → Bool) (it : PortfolioItem) : Bool :=
  portfolioItemCategoryValues.contains it.category
    && urlOK it.src
    && (match it.width with
        | none => true
        | some w => 1 ≤ w)
    && (match it.height with
        | none => true
        | some h => 1 ≤ h)

/-- The fixed list returned by `portfolio_categories` (src/main.py
lines 82-93). -/
def portfolio_categories : List String :=
  ["Interiors", "Exteriors", "Drone / Aerial", "Architectural Details",
   "Commercial Spaces", "Short-Let & Airbnb"]

/-- A document held by the modelled store. -/
inductive StoredDoc where
  | portfolio (item : PortfolioItem)
  | contact (msg : ContactMessage)
deriving Repr, DecidableEq

/-- Modelled from the spec: the document store behind the absent database
module — "a schemaless/semi-schemaless database addressed by named
collections of independent records".  `docs` lists every stored record as
(collection name, assigned id, document) in insertion order; `counter`
supplies fresh opaque ids. -/
structure DocStore where
  counter : Nat
  docs : List (String × String × StoredDoc)
deriving Repr, DecidableEq

/-- Modelled from the spec: `create_document` from the absent database module,
the "generic 'insert one document into named collection' operation over a
document store" whose result is "an opaque store-assigned id".  Assigns the
next fresh id and appends the record to the named collection. -/
def create_document (collection : String) (doc : StoredDoc) (s : DocStore) :
    String × DocStore :=
  let id := toString s.counter
  (id, { counter := s.counter + 1, docs := s.docs ++ [(collection, id, doc)] })

/-- An `HTTPException` raised by a handler: status code and detail. -/
structure HttpError where
  status : Nat
  detail : String
deriving Repr, DecidableEq

/-- The JSON object returned by `add_portfolio_bulk` (src/main.py
line 109). -/
structure BulkResponse where
  inserted : Nat
  ids : List String
deriving Repr, DecidableEq

/-- The insertion loop of `add_portfolio_bulk` (src/main.py lines 106-108):
one `create_document` call per item, in order, collecting the ids. -/
def bulkInsertLoop : DocStore → List PortfolioItem → List String × DocStore
  | s, [] => ([], s)
  | s, it :: rest =>
    let p := create_document "portfolioitem" (StoredDoc.portfolio it) s
    let q := bulkInsertLoop p.2 rest
    (p.1 :: q.1, q.2)

/-- `add_portfolio_item` (src/main.py lines 95-100).  `dbAvailable` is the
`db is None` check; the resulting store is returned alongside the
response (unchanged when the handler raises). -/
def add_portfolio_item (dbAvailable : Bool) (s : DocStore) (item : PortfolioItem) :
    Except HttpError String × DocStore :=
  if dbAvailable then
    let p := create_document "portfolioitem" (StoredDoc.portfolio item) s
    (.ok p.1, p.2)
  else
    (.error ⟨500, "Database not configured"⟩, s)

/-- `add_portfolio_bulk` (src/main.py lines 102-109). -/
def add_portfolio_bulk (dbAvailable : Bool) (s : DocStore) (items : List PortfolioItem) :
    Except HttpError BulkResponse × DocStore :=
  if dbAvailable then
    let r := bulkInsertLoop s items
    (.ok ⟨r.1.length, r.1⟩, r.2)
  else
    (.error ⟨500, "Database not configured"⟩, s)

/-- A document of the `portfolioitem` collection as seen by the read path of
`list_portfolio`: only `category` (filtering) and `created_at` (sorting)
influence the modelled logic; the remaining payload is opaque. -/
structure PortfolioDoc where
  id : String
  category : String
  created_at : Int
deriving Repr, DecidableEq

/-- The JSON object returned by `list_portfolio` (src/main.py line 80). -/
structure ListResponse where
  items : List PortfolioDoc
  total : Nat
  page : Int
  limit : Int
deriving Repr, DecidableEq

/-- The `filter_dict` construction of `list_portfolio` (src/main.py
lines 69-71) applied to a collection: a truthy `category` restricts to
documents of that category, otherwise no restriction. -/
def portfolioFilter (coll : List PortfolioDoc) (category : Option String) :
    List PortfolioDoc :=
  if pyTruthy category then
    coll.filter (fun d => d.category == category.getD "")
  else coll

/-- The store's `sort("created_at", -1)`: documents ordered by creation time
descending. -/
def sortByCreatedDesc (docs : List PortfolioDoc) : List PortfolioDoc :=
  docs.mergeSort (fun a b => decide (b.created_at ≤ a.created_at))

/-- `list_portfolio` (src/main.py lines 65-80).  `coll` is the content of the
`portfolioitem` collection; `count_documents`, `find`, `sort`, `skip` and
`limit` of the store cursor are modelled as list operations (a `skip` of
`max 0 ((page-1)*limit)` documents, then at most `limit` documents taken,
with non-positive bounds clamped to zero). -/
def list_portfolio (dbAvailable : Bool) (coll : List PortfolioDoc)
    (category : Option String) (page limit : Int) : Except HttpError ListResponse :=
  if dbAvailable then
    let matching := portfolioFilter coll category
    let skip : Int := max 0 ((page - 1) * limit)
    let total := matching.length
    let items := ((sortByCreatedDesc matching).drop skip.toNat).take limit.toNat
    .ok ⟨items, total, page, limit⟩
  else
    .error ⟨500, "Database not configured"⟩

/-- C1: for every validated ContactMessage submission, the response `status`
is "emailed" exactly when the SMTP delivery attempt returned success and
"stored" in every other case, for every persistence outcome (success,
failure, any id). -/
theorem submit_contact_status_matches_delivery (env : Env)
    (persist : Except String String) (attempt : Except String Unit)
    (payload : ContactMessage) :
    (submit_contact env persist attempt payload).status =
      if (send_email_via_smtp env attempt "New portfolio inquiry"
            (contactBody payload) payload.email).1
      then "emailed" else "stored" := rfl

/-- C3: when persisting the contact message raises any exception, the handler
surfaces no error: it returns a normal response whose `id` is null and whose
`status` is still one of the two workflow statuses. -/
theorem submit_contact_swallows_persistence_failure (env : Env) (e : String)
    (attempt : Except String Unit) (payload : ContactMessage) :
    (submit_contact env (.error e) attempt payload).id = none ∧
    ((submit_contact env (.error e) attempt payload).status = "emailed" ∨
     (submit_contact env (.error e) attempt payload).status = "stored") := by
  refine ⟨rfl, ?_⟩
  by_cases h : (send_email_via_smtp env attempt "New portfolio inquiry"
      (contactBody payload) payload.email).1
  · exact Or.inl (by simp [submit_contact, h])
  · exact Or.inr (by simp [submit_contact, h])

/-- C4: when the SMTP host or the recipient (CONTACT_TO_EMAIL falling back to
TO_EMAIL) is absent from the environment, `send_email_via_smtp` skips the
delivery attempt and returns failure with "SMTP not configured"; the delivery
guard passes only when both are present. -/
theorem send_email_skips_when_unconfigured (env : Env)
    (attempt : Except String Unit) (subject body from_email : String) :
    ((env.smtpHost = none ∨ pyOr env.contactToEmail env.toEmail = none) →
      smtpConfigured env = false ∧
      send_email_via_smtp env attempt subject body from_email =
        (false, "SMTP not configured")) ∧
    (smtpConfigured env = true →
      env.smtpHost ≠ none ∧ pyOr env.contactToEmail env.toEmail ≠ none) := by
  constructor
  · intro h
    have hc : smtpConfigured env = false := by
      rcases h with h | h <;> simp [smtpConfigured, h, pyTruthy]
    exact ⟨hc, by simp [send_email_via_smtp, hc]⟩
  · intro hc
    constructor
    · intro h; simp [smtpConfigured, h, pyTruthy] at hc
    · intro h; simp [smtpConfigured, h, pyTruthy] at hc

/-- Witness for C4: with SMTP_HOST unset, the delivery result is the fixed
"SMTP not configured" failure. -/
theorem send_email_skips_when_unconfigured_witness :
    send_email_via_smtp ⟨none, some "owner@example.com", none⟩ (.ok ())
      "s" "b" "f" = (false, "SMTP not configured") :=
  ((send_email_skips_when_unconfigured ⟨none, some "owner@example.com", none⟩
    (.ok ()) "s" "b" "f").1 (Or.inl rfl)).2

/-- C10: when delivery fails and persistence succeeds but returns the falsy
id "", the response reports "Email not sent and could not save." even though
the message was persisted (the returned id is ""). -/
theorem contact_falsy_saved_id_reports_not_saved (env : Env)
    (attempt : Except String Unit) (payload : ContactMessage)
    (h : (send_email_via_smtp env attempt "New portfolio inquiry"
            (contactBody payload) payload.email).1 = false) :
    (submit_contact env (.ok "") attempt payload).id = some "" ∧
    (submit_contact env (.ok "") attempt payload).detail =
      "Email not sent and could not save." := by
  refine ⟨rfl, ?_⟩
  simp [submit_contact, h, pyTruthy]

/-- Witness for C10: concrete unconfigured environment, delivery fails,
persistence returned the empty-string id. -/
theorem contact_falsy_saved_id_reports_not_saved_witness :
    (submit_contact ⟨none, none, none⟩ (.ok "") (.ok ())
        ⟨"Jane Doe", "jane@example.com", none, "Hello there"⟩).id = some "" ∧
    (submit_contact ⟨none, none, none⟩ (.ok "") (.ok ())
        ⟨"Jane Doe", "jane@example.com", none, "Hello there"⟩).detail =
      "Email not sent and could not save." :=
  contact_falsy_saved_id_reports_not_saved ⟨none, none, none⟩ (.ok ())
    ⟨"Jane Doe", "jane@example.com", none, "Hello there"⟩ rfl

/-- Counterexample for C2: with delivery failed and a saved-id present (the
empty string returned by persistence, echoed in the response `id`), the
detail is not the "saved to database" message the claim requires, but
"Email not sent and could not save.". -/
theorem contact_detail_counterexample_existing_id :
    (submit_contact ⟨none, none, none⟩ (.ok "") (.ok ())
        ⟨"Jane Doe", "jane@example.com", none, "Hello there"⟩).id = some "" ∧
    (submit_contact ⟨none, none, none⟩ (.ok "") (.ok ())
        ⟨"Jane Doe", "jane@example.com", none, "Hello there"⟩).status = "stored" ∧
    (submit_contact ⟨none, none, none⟩ (.ok "") (.ok ())
        ⟨"Jane Doe", "jane@example.com", none, "Hello there"⟩).detail =
      "Email not sent and could not save." ∧
    (submit_contact ⟨none, none, none⟩ (.ok "") (.ok ())
        ⟨"Jane Doe", "jane@example.com", none, "Hello there"⟩).detail ≠
      "Email not sent: SMTP not configured. Saved to database." := by
  refine ⟨rfl, rfl, rfl, ?_⟩
  decide

/-- C2 (amended): the detail is "Message emailed successfully" when delivery
succeeded; "Email not sent: <info>. Saved to database." when delivery failed
and the saved-id is truthy (non-null, non-empty); and "Email not sent and
could not save." when delivery failed and the saved-id is null or empty. -/
theorem contact_detail_cases (env : Env) (persist : Except String String)
    (attempt : Except String Unit) (payload : ContactMessage) :
    ((send_email_via_smtp env attempt "New portfolio inquiry"
        (contactBody payload) payload.email).1 = true →
      (submit_contact env persist attempt payload).detail =
        "Message emailed successfully") ∧
    ((send_email_via_smtp env attempt "New portfolio inquiry"
        (contactBody payload) payload.email).1 = false →
      pyTruthy (submit_contact env persist attempt payload).id = true →
      (submit_contact env persist attempt payload).detail =
        "Email not sent: "
          ++ (send_email_via_smtp env attempt "New portfolio inquiry"
                (contactBody payload) payload.email).2
          ++ ". Saved to database.") ∧
    ((send_email_via_smtp env attempt "New portfolio inquiry"
        (contactBody payload) payload.email).1 = false →
      pyTruthy (submit_contact env persist attempt payload).id = false →
      (submit_contact env persist attempt payload).detail =
        "Email not sent and could not save.") := by
  refine ⟨fun h => ?_, fun h ht => ?_, fun h ht => ?_⟩ <;>
    simp_all [submit_contact, pyTruthy]

/-- Witness for C2 (amended): with SMTP unconfigured and persistence raising,
delivery fails, the saved-id is falsy and the detail is the
"could not save" message. -/
theorem contact_detail_cases_witness :
    (submit_contact ⟨none, none, none⟩ (.error "db down") (.ok ())
        ⟨"Jane Doe", "jane@example.com", none, "Hello there"⟩).detail =
      "Email not sent and could not save." :=
  (contact_detail_cases ⟨none, none, none⟩ (.error "db down") (.ok ())
    ⟨"Jane Doe", "jane@example.com", none, "Hello there"⟩).2.2 rfl rfl

/-- C7: ContactMessage validation accepts a body exactly when the name has 2
to 120 characters, the email passes the email-syntax check, the phone is
absent or at most 50 characters, and the message has 5 to 5000 characters;
in particular a 4-character message is rejected and a 5-character message is
accepted. -/
theorem contactMessage_validation (emailOK : String → Bool) (m : ContactMessage) :
    (contactMessageValid emailOK m = true ↔
      (2 ≤ m.name.length ∧ m.name.length ≤ 120 ∧ emailOK m.email = true ∧
       (∀ p, m.phone = some p → p.length ≤ 50) ∧
       5 ≤ m.message.length ∧ m.message.length ≤ 5000)) ∧
    contactMessageValid (fun _ => true) ⟨"Jo", "a@b.co", none, "abcd"⟩ = false ∧
    contactMessageValid (fun _ => true) ⟨"Jo", "a@b.co", none, "abcde"⟩ = true := by
  refine ⟨?_, by decide, by decide⟩
  cases hp : m.phone <;> simp [contactMessageValid, hp] <;> tauto

/-- Witness for C7: the 5-character message "abcde" is accepted. -/
theorem contactMessage_validation_witness :
    contactMessageValid (fun _ => true) ⟨"Jo", "a@b.co", none, "abcde"⟩ = true :=
  (contactMessage_validation (fun _ => true)
    ⟨"Jo", "a@b.co", none, "abcde"⟩).2.2

/-- C8: the categories endpoint returns a fixed list of exactly 6 strings,
and membership in that list coincides with the category values accepted by
PortfolioItem validation (the `Literal` values of the schema). -/
theorem portfolio_categories_match_schema :
    portfolio_categories.length = 6 ∧
    (∀ c, portfolio_categories.contains c =
      portfolioItemCategoryValues.contains c) ∧
    (∀ urlOK it, portfolioItemValid urlOK it =
      (portfolio_categories.contains it.category && urlOK it.src
        && (match it.width with | none => true | some w => decide (1 ≤ w))
        && (match it.height with | none => true | some h => decide (1 ≤ h)))) :=
  ⟨rfl, fun _ => rfl, fun _ _ => rfl⟩

/-- C9: with the database handle unavailable, the listing, single-create and
bulk-create handlers each fail with HTTP 500 "Database not configured", and
the store is left untouched. -/
theorem db_unavailable_rejects (coll : List PortfolioDoc)
    (category : Option String) (page limit : Int) (s t : DocStore)
    (item : PortfolioItem) (items : List PortfolioItem) :
    list_portfolio false coll category page limit =
      .error ⟨500, "Database not configured"⟩ ∧
    add_portfolio_item false s item =
      (.error ⟨500, "Database not configured"⟩, s) ∧
    add_portfolio_bulk false t items =
      (.error ⟨500, "Database not configured"⟩, t) :=
  ⟨rfl, rfl, rfl⟩

theorem bulkInsertLoop_ids (items : List PortfolioItem) :
    ∀ s : DocStore, (bulkInsertLoop s items).1 =
      (List.range items.length).map (fun i => toString (s.counter + i)) := by
  induction items with
  | nil => intro s; rfl
  | cons it rest ih =>
    intro s
    simp only [bulkInsertLoop, create_document, ih, List.length_cons,
      List.range_succ_eq_map, List.map_cons, List.map_map, Nat.add_zero]
    refine List.cons_eq_cons.mpr ⟨rfl, ?_⟩
    apply List.map_congr_left
    intro a _
    simp only [Function.comp_apply]
    congr 1
    omega

theorem bulkInsertLoop_docs (items : List PortfolioItem) :
    ∀ s : DocStore, (bulkInsertLoop s items).2.docs =
      s.docs ++ ((bulkInsertLoop s items).1.zip items).map
        (fun p => ("portfolioitem", p.1, StoredDoc.portfolio p.2)) := by
  induction items with
  | nil => intro s; simp [bulkInsertLoop]
  | cons it rest ih =>
    intro s
    simp [bulkInsertLoop, create_document, ih]

theorem bulkInsertLoop_counter (items : List PortfolioItem) :
    ∀ s : DocStore, (bulkInsertLoop s items).2.counter =
      s.counter + items.length := by
  induction items with
  | nil => intro s; rfl
  | cons it rest ih =>
    intro s
    simp [bulkInsertLoop, create_document, ih]
    omega

/-- C5: posting n valid items to the bulk endpoint performs one store call
per item, sequentially; the response carries inserted = n and the
store-assigned ids in submission order, and the store ends with exactly the
n new records appended in that order. -/
theorem add_portfolio_bulk_spec (urlOK : String → Bool) (s : DocStore)
    (items : List PortfolioItem)
    (hvalid : ∀ it ∈ items, portfolioItemValid urlOK it = true) :
    (add_portfolio_bulk true s items).1 =
      .ok ⟨items.length,
        (List.range items.length).map (fun i => toString (s.counter + i))⟩ ∧
    (add_portfolio_bulk true s items).2.docs =
      s.docs ++ (((List.range items.length).map
          (fun i => toString (s.counter + i))).zip items).map
        (fun p => ("portfolioitem", p.1, StoredDoc.portfolio p.2)) := by
  constructor
  · show Except.ok (BulkResponse.mk (bulkInsertLoop s items).1.length
      (bulkInsertLoop s items).1) = _
    rw [bulkInsertLoop_ids]
    simp
  · show (bulkInsertLoop s items).2.docs = _
    rw [bulkInsertLoop_docs, bulkInsertLoop_ids]

/-- Witness for C5: three valid items inserted into the empty store yield
inserted = 3 and the three distinct ids "0", "1", "2" in submission
order. -/
theorem add_portfolio_bulk_spec_witness :
    (∀ it ∈ ([⟨none, "Interiors", "https://example.com/a.jpg", none, none, none⟩,
        ⟨none, "Exteriors", "https://example.com/b.jpg", none, none, none⟩,
        ⟨none, "Commercial Spaces", "https://example.com/c.jpg", none,
          some 800, some 600⟩] : List PortfolioItem),
      portfolioItemValid (fun _ => true) it = true) ∧
    (add_portfolio_bulk true ⟨0, []⟩
        [⟨none, "Interiors", "https://example.com/a.jpg", none, none, none⟩,
         ⟨none, "Exteriors", "https://example.com/b.jpg", none, none, none⟩,
         ⟨none, "Commercial Spaces", "https://example.com/c.jpg", none,
           some 800, some 600⟩]).1 = .ok ⟨3, ["0", "1", "2"]⟩ := by
  refine ⟨by decide, ?_⟩
  have h := (add_portfolio_bulk_spec (fun _ => true) ⟨0, []⟩
    [⟨none, "Interiors", "https://example.com/a.jpg", none, none, none⟩,
     ⟨none, "Exteriors", "https://example.com/b.jpg", none, none, none⟩,
     ⟨none, "Commercial Spaces", "https://example.com/c.jpg", none,
       some 800, some 600⟩] (by decide)).1
  exact h.trans rfl

/-- A sample `portfolioitem` collection used to instantiate the pagination
theorem. -/
def sampleDocs : List PortfolioDoc :=
  [⟨"a", "Interiors", 3⟩, ⟨"b", "Interiors", 2⟩, ⟨"c", "Exteriors", 1⟩]

/-- C6: a listing request with the database available skips exactly
max 0 ((page-1)*limit) documents, returns at most limit items, and echoes
page, limit and the total count of matching documents. -/
theorem list_portfolio_pagination (coll : List PortfolioDoc)
    (category : Option String) (page limit : Int) (hlim : 0 < limit) :
    ∃ resp, list_portfolio true coll category page limit = .ok resp ∧
      resp.page = page ∧ resp.limit = limit ∧
      resp.total = (portfolioFilter coll category).length ∧
      resp.items = ((sortByCreatedDesc (portfolioFilter coll category)).drop
        (max 0 ((page - 1) * limit)).toNat).take limit.toNat ∧
      (resp.items.length : Int) ≤ limit := by
  refine ⟨_, rfl, rfl, rfl, rfl, rfl, ?_⟩
  have h1 : (((sortByCreatedDesc (portfolioFilter coll category)).drop
      (max 0 ((page - 1) * limit)).toNat).take limit.toNat).length ≤
        limit.toNat := List.length_take_le _ _
  dsimp only
  omega

/-- Witness for C6: the sample collection listed with page 2 and limit 2. -/
theorem list_portfolio_pagination_witness :
    (0 : Int) < 2 ∧
    (∃ resp, list_portfolio true sampleDocs none 2 2 = .ok resp ∧
      resp.page = 2 ∧ resp.limit = 2 ∧
      resp.total = (portfolioFilter sampleDocs none).length ∧
      resp.items = ((sortByCreatedDesc (portfolioFilter sampleDocs none)).drop
        (max 0 (((2 : Int) - 1) * 2)).toNat).take (2 : Int).toNat ∧
      (resp.items.length : Int) ≤ 2) :=
  ⟨by decide, list_portfolio_pagination sampleDocs none 2 2 (by decide)⟩
